import Mathlib

/-
Verification of the geodesic-dome generator (DomeGenerator.py, config.py,
cs.py).  The list-manipulating parts of DomeGenerator.py are embedded as
executable Lean functions; the coordinate conversions of cs.py are embedded
over the real numbers.  The subdivision/deduplication machinery lives in the
modules Coordinates.py / IcoFace.py / GeoSphere.py, which are not part of the
sources at hand; those parts are modelled from the specification and marked as
such in their doc comments.
-/

namespace Dome

/-- Python range(lo, hi): the list [lo, lo+1, ..., hi-1]. -/
def pyRange (lo hi : Nat) : List Nat :=
  (List.range (hi - lo)).map (· + lo)

/-- Python sorted([a, b, c]): the three values in ascending order. -/
def sorted3 (a b c : Nat) : Nat × Nat × Nat :=
  (min a (min b c), a + b + c - min a (min b c) - max a (max b c), max a (max b c))

/-- DomeGenerator.py lines 294-298: the two inner loops (over b and c) of
the triangle search, for a fixed value of the outer variable a.  A triple is
recorded, sorted ascending, whenever b in hub_dict[a] and c in hub_dict[a]
and b in hub_dict[c]. -/
def innerBC (n : Nat) (hub : Nat → List Nat) (a : Nat) : List (Nat × Nat × Nat) :=
  (pyRange 1 n).flatMap fun b =>
    (pyRange 1 n).filterMap fun c =>
      if b ∈ hub a ∧ c ∈ hub a ∧ b ∈ hub c then some (sorted3 a b c) else none

/-- DomeGenerator.py lines 293-298: the triple loop over
range(1, len(hub_dict)) that records sorted([a, b, c]) whenever
b in hub_dict[a] and c in hub_dict[a] and b in hub_dict[c].
Here `n` stands for len(hub_dict) and `hub` for the dictionary hub_dict,
viewed as a function from a point id to its list of neighbour ids. -/
def triangle_list (n : Nat) (hub : Nat → List Nat) : List (Nat × Nat × Nat) :=
  (pyRange 1 n).flatMap fun a => innerBC n hub a

/-- DomeGenerator.py line 301: non_duplicates accumulates each triple of
triangle_list that is not already present and whose three entries are
pairwise distinct.  (The source compares the entries with the Python
operator `is`; on the ids produced here CPython interns equal small
integers, so `is` coincides with value equality, which is what we embed.) -/
def nonDupStep (acc : List (Nat × Nat × Nat)) (x : Nat × Nat × Nat) :
    List (Nat × Nat × Nat) :=
  if x ∉ acc ∧ x.1 ≠ x.2.1 ∧ x.2.1 ≠ x.2.2 ∧ x.1 ≠ x.2.2 then acc ++ [x] else acc

/-- DomeGenerator.py line 301, the list as a whole: fold nonDupStep over
triangle_list starting from the empty accumulator. -/
def non_duplicates (ts : List (Nat × Nat × Nat)) : List (Nat × Nat × Nat) :=
  ts.foldl nonDupStep []

/-- DomeGenerator.py line 326: each output line of Triangles.txt is produced
by the Python expression a format string with two placeholders applied to
the three entries x[0], x[1], x[2]; str.format silently ignores the surplus
third argument, so only the first two entries reach the file. -/
def triangleLine (t : Nat × Nat × Nat) : String :=
  toString t.1 ++ " " ++ toString t.2.1

/-- DomeGenerator.py lines 325-326: Triangles.txt is the newline join of the
formatted lines of non_duplicates. -/
def trianglesFile (ts : List (Nat × Nat × Nat)) : String :=
  String.intercalate "\n" (ts.map triangleLine)

/-- A concrete adjacency dictionary with three mutually adjacent points
1, 2, 3 (a single closed triangle), used to exercise triangle_list. -/
def hub3 : Nat → List Nat
  | 1 => [2, 3]
  | 2 => [1, 3]
  | 3 => [1, 2]
  | _ => []

/-- Modelled from the spec: GeoSphere.Create_New_Edges and
GeoSphere.Remove_Duplicate_Edges (GeoSphere.py is not among the sources;
DomeGenerator.py lines 217-220 only call them).  Spec 4.4: edges whose two
endpoints coincide after remapping are dropped as degenerate; the remaining
edges are deduplicated by unordered-pair equality, each surviving pair kept
once in first-seen order.  Pairs are stored with the smaller endpoint first. -/
def canonPair (e : Nat × Nat) : Nat × Nat :=
  if e.1 ≤ e.2 then e else (e.2, e.1)

/-- One step of the edge deduplication fold: a degenerate or already-seen
unordered pair is discarded, anything else is appended. -/
def edgeStep (acc : List (Nat × Nat)) (e : Nat × Nat) : List (Nat × Nat) :=
  if (canonPair e).1 = (canonPair e).2 ∨ canonPair e ∈ acc then acc
  else acc ++ [canonPair e]

/-- The edge set as a whole: fold edgeStep over the raw edges starting from
the empty accumulator. -/
def dedupEdges (raw : List (Nat × Nat)) : List (Nat × Nat) :=
  raw.foldl edgeStep []

/-- The 20 icosahedron faces exactly as added in DomeGenerator.py
lines 182-207 (the Add_Face calls), with the vertices a..l numbered 1..12
in their creation order (lines 99-169). -/
def baseFaces : List (Nat × Nat × Nat) :=
  [(1, 2, 3), (1, 3, 4), (1, 4, 5), (1, 5, 6), (1, 6, 2),
   (10, 11, 3), (11, 4, 7), (7, 5, 8), (8, 6, 9), (9, 2, 10),
   (3, 11, 4), (4, 7, 5), (5, 8, 6), (6, 9, 2), (2, 10, 3),
   (12, 11, 10), (12, 10, 9), (12, 9, 8), (12, 8, 7), (12, 7, 11)]

/-- Modelled from the spec: canonical identity of a subdivision lattice point
after global deduplication (spec 4.2/4.3; the implementing modules
Coordinates.py / IcoFace.py / GeoSphere.py are not among the sources).
Spec 3 (Face invariant): lattice points on a shared edge of two adjacent
faces coincide within the tolerance and are collapsed into one canonical
point, so a lattice point is determined by whether it is a seed vertex, a
point strictly inside a seed edge, or a point strictly inside one face. -/
inductive PKey where
  | vert : Nat → PKey
  | onEdge : Nat → Nat → Nat → PKey
  | inner : Nat → Nat → Nat → PKey
deriving DecidableEq, Repr

/-- The canonical key of the lattice point k/n of the way from seed vertex u
to seed vertex v: the endpoints are put in increasing order and the step
count is measured from the smaller endpoint. -/
def edgePK (n u v k : Nat) : PKey :=
  if u ≤ v then PKey.onEdge u v k else PKey.onEdge v u (n - k)

/-- Modelled from the spec (4.2): the lattice positions (i, j) with
i + j ≤ n of a face subdivided at frequency n, in row order. -/
def lattice (n : Nat) : List (Nat × Nat) :=
  (List.range (n + 1)).flatMap fun i =>
    (List.range (n + 1 - i)).map fun j => (i, j)

/-- Modelled from the spec (4.2/4.3): the canonical key of lattice position
(i, j) of face number fi with corner vertices fc, subdivided at frequency n.
Corners are seed vertices; boundary positions lie on seed edges; everything
else is interior to the face. -/
def keyOf (n fi : Nat) (fc : Nat × Nat × Nat) (i j : Nat) : PKey :=
  if i = 0 ∧ j = 0 then PKey.vert fc.1
  else if i = n then PKey.vert fc.2.1
  else if j = n then PKey.vert fc.2.2
  else if j = 0 then edgePK n fc.1 fc.2.1 i
  else if i = 0 then edgePK n fc.1 fc.2.2 j
  else if i + j = n then edgePK n fc.2.1 fc.2.2 j
  else PKey.inner fi i j

/-- Modelled from the spec (4.3): all candidate lattice keys, faces in the
order they were added, lattice positions in row order within a face. -/
def allKeys (n : Nat) : List PKey :=
  baseFaces.enum.flatMap fun fifc =>
    (lattice n).map fun ij => keyOf n fifc.1 fifc.2 ij.1 ij.2

/-- First-seen deduplication of a key list, keeping order of first
appearance (spec 4.3: canonical points are renumbered in a stable,
deterministic order, order of first appearance). -/
def dedupKeys (ks : List PKey) : List PKey :=
  ks.foldl (fun acc k => if k ∈ acc then acc else acc ++ [k]) []

/-- Modelled from the spec (4.3): the canonical point list at frequency n,
in order of first appearance.  Point ids are positions in this list plus 1. -/
def canonPoints (n : Nat) : List PKey :=
  dedupKeys (allKeys n)

/-- The 1-based id of a canonical key within a canonical point list. -/
def pointId (canon : List PKey) (k : PKey) : Nat :=
  canon.indexOf k + 1

/-- Modelled from the spec (4.2): the n² sub-triangles of one face at
frequency n, as triples of lattice positions: the upward triangles
(i,j)-(i+1,j)-(i,j+1) with i + j ≤ n - 1 and the downward triangles
(i+1,j)-(i+1,j+1)-(i,j+1) with i + j ≤ n - 2. -/
def faceTris (n : Nat) : List ((Nat × Nat) × (Nat × Nat) × (Nat × Nat)) :=
  ((lattice (n - 1)).map fun ij =>
    ((ij.1, ij.2), (ij.1 + 1, ij.2), (ij.1, ij.2 + 1))) ++
  (if 2 ≤ n then
    (lattice (n - 2)).map fun ij =>
      ((ij.1 + 1, ij.2), (ij.1 + 1, ij.2 + 1), (ij.1, ij.2 + 1))
   else [])

/-- Modelled from the spec (4.2/4.4): every sub-triangle of every face
contributes its three edges, expressed on canonical point ids. -/
def rawEdgesOn (canon : List PKey) (n : Nat) : List (Nat × Nat) :=
  baseFaces.enum.flatMap fun fifc =>
    (faceTris n).flatMap fun t =>
      let pa := pointId canon (keyOf n fifc.1 fifc.2 t.1.1 t.1.2)
      let pb := pointId canon (keyOf n fifc.1 fifc.2 t.2.1.1 t.2.1.2)
      let pc := pointId canon (keyOf n fifc.1 fifc.2 t.2.2.1 t.2.2.2)
      [(pa, pb), (pb, pc), (pa, pc)]

/-- The raw candidate edges at frequency n on canonical ids. -/
def rawEdges (n : Nat) : List (Nat × Nat) :=
  rawEdgesOn (canonPoints n) n

/-- The final deduplicated edge list at frequency n (spec 4.4). -/
def geoEdges (n : Nat) : List (Nat × Nat) :=
  dedupEdges (rawEdges n)

/-- Modelled from the spec (4.5, Hub_List_From_Edges): the neighbours of
point id p read off the deduplicated edge list. -/
def hubOf (es : List (Nat × Nat)) (p : Nat) : List Nat :=
  es.foldl (fun acc e =>
    if e.1 = p then acc ++ [e.2] else if e.2 = p then acc ++ [e.1] else acc) []

/-- The adjacency index as a table: entry p - 1 holds the neighbours of
point id p, for p = 1..N. -/
def hubTable (es : List (Nat × Nat)) (N : Nat) : List (List Nat) :=
  (List.range N).map fun p0 => hubOf es (p0 + 1)

/-- Dictionary lookup in a hub table (hub_dict[p]). -/
def hubFun (tab : List (List Nat)) (p : Nat) : List Nat :=
  tab.getD (p - 1) []

/-- The full reconstruction pipeline at frequency n: the spec-modelled
subdivision, dedup and adjacency feeding the triangle search embedded from
DomeGenerator.py lines 293-301. -/
def geoTriangles (n : Nat) : List (Nat × Nat × Nat) :=
  non_duplicates (triangle_list (canonPoints n).length
    (hubFun (hubTable (geoEdges n) (canonPoints n).length)))

/-! Embedding of the coordinate conversions of cs.py over the real numbers.
numpy arctan2(y, x) is the angle of the point (x, y), which is the complex
argument of x + y*i. -/

/-- numpy arctan2(y, x): the argument of the complex number x + y*i. -/
noncomputable def arctan2 (y x : ℝ) : ℝ :=
  Complex.arg ⟨x, y⟩

/-- cs.py lines 13-38 (scalar case): r = sqrt(x²+y²+z²),
theta = arcsin(z/r), phi = arctan2(y, x).  The division z/r is not guarded
against r = 0. -/
noncomputable def cart2sp (x y z : ℝ) : ℝ × ℝ × ℝ :=
  (Real.sqrt (x ^ 2 + y ^ 2 + z ^ 2),
   Real.arcsin (z / Real.sqrt (x ^ 2 + y ^ 2 + z ^ 2)),
   arctan2 y x)

/-- cs.py lines 40-65 (scalar case): x = r cos(theta) cos(phi),
y = r cos(theta) sin(phi), z = r sin(theta). -/
noncomputable def sp2cart (r theta phi : ℝ) : ℝ × ℝ × ℝ :=
  (r * Real.cos theta * Real.cos phi,
   r * Real.cos theta * Real.sin phi,
   r * Real.sin theta)

/-- The composite cart2sp-then-sp2cart map applied by the claims about
cs.py. -/
noncomputable def roundTrip (x y z : ℝ) : ℝ × ℝ × ℝ :=
  sp2cart (cart2sp x y z).1 (cart2sp x y z).2.1 (cart2sp x y z).2.2

/-- Euclidean distance of a coordinate triple from the origin. -/
noncomputable def norm3 (p : ℝ × ℝ × ℝ) : ℝ :=
  Real.sqrt (p.1 ^ 2 + p.2.1 ^ 2 + p.2.2 ^ 2)

/-- DomeGenerator.py lines 253-265: each point is converted to spherical
coordinates, the computed radius is discarded and replaced by the
configured R, and the point is converted back to cartesian. -/
noncomputable def projectPoint (R : ℝ) (p : ℝ × ℝ × ℝ) : ℝ × ℝ × ℝ :=
  sp2cart R (cart2sp p.1 p.2.1 p.2.2).2.1 (cart2sp p.1 p.2.1 p.2.2).2.2

/-- DomeGenerator.py lines 253-265: spherical_points is unsorted_points
with every entry reprojected to radius R. -/
noncomputable def spherical_points (R : ℝ) (pts : List (ℝ × ℝ × ℝ)) :
    List (ℝ × ℝ × ℝ) :=
  pts.map (projectPoint R)

/-- DomeGenerator.py lines 316-321: Nodes.txt receives spherical_points
when config.Icosohedral is False and the untouched unsorted_points when it
is True. -/
noncomputable def nodesOut (ico : Bool) (R : ℝ) (pts : List (ℝ × ℝ × ℝ)) :
    List (ℝ × ℝ × ℝ) :=
  if ico = false then spherical_points R pts else pts

/-- The error taxonomy of spec section 7 that is relevant here. -/
inductive DomeError where
  | configurationError : DomeError
deriving DecidableEq

/-- Modelled from the spec: GeoSphere.py is not among the sources; only its
constructor call G.GeoSphere("Sphere", frequency, R) appears in
DomeGenerator.py line 76.  Spec section 7: a ConfigurationError is raised
for an invalid frequency (< 1) or a non-positive R, failing fast before any
geometry is generated; on valid input the run produces the canonical point
and edge sets of the subdivided icosahedron. -/
def geoSphereRun (frequency : Int) (R : ℚ) :
    Except DomeError (List PKey × List (Nat × Nat)) :=
  if frequency < 1 ∨ R ≤ 0 then Except.error DomeError.configurationError
  else Except.ok (canonPoints frequency.toNat, geoEdges frequency.toNat)


/-! Materialised intermediate values of the frequency-2 pipeline, used to
keep every kernel evaluation step small. -/

/-- The canonical point list at frequency 2, materialised for the staged
evaluation of the frequency-2 pipeline. -/
def canonLit2 : List PKey :=
  [Dome.PKey.vert 1, Dome.PKey.onEdge 1 3 1, Dome.PKey.vert 3, Dome.PKey.onEdge 1 2 1, Dome.PKey.onEdge 2 3 1, Dome.PKey.vert 2, Dome.PKey.onEdge 1 4 1, Dome.PKey.vert 4, Dome.PKey.onEdge 3 4 1, Dome.PKey.onEdge 1 5 1, Dome.PKey.vert 5, Dome.PKey.onEdge 4 5 1, Dome.PKey.onEdge 1 6 1, Dome.PKey.vert 6, Dome.PKey.onEdge 5 6 1, Dome.PKey.onEdge 2 6 1, Dome.PKey.vert 10, Dome.PKey.onEdge 3 10 1, Dome.PKey.onEdge 10 11 1, Dome.PKey.onEdge 3 11 1, Dome.PKey.vert 11, Dome.PKey.onEdge 7 11 1, Dome.PKey.vert 7, Dome.PKey.onEdge 4 11 1, Dome.PKey.onEdge 4 7 1, Dome.PKey.onEdge 7 8 1, Dome.PKey.vert 8, Dome.PKey.onEdge 5 7 1, Dome.PKey.onEdge 5 8 1, Dome.PKey.onEdge 8 9 1, Dome.PKey.vert 9, Dome.PKey.onEdge 6 8 1, Dome.PKey.onEdge 6 9 1, Dome.PKey.onEdge 9 10 1, Dome.PKey.onEdge 2 9 1, Dome.PKey.onEdge 2 10 1, Dome.PKey.vert 12, Dome.PKey.onEdge 10 12 1, Dome.PKey.onEdge 11 12 1, Dome.PKey.onEdge 9 12 1, Dome.PKey.onEdge 8 12 1, Dome.PKey.onEdge 7 12 1]

/-- The raw sub-triangle edges at frequency 2, materialised. -/
def rawLit2 : List (Nat × Nat) :=
  [(1, 4), (4, 2), (1, 2), (2, 5), (5, 3), (2, 3), (4, 6), (6, 5), (4, 5), (4, 5), (5, 2), (4, 2), (1, 2), (2, 7), (1, 7), (7, 9), (9, 8), (7, 8), (2, 3), (3, 9), (2, 9), (2, 9), (9, 7), (2, 7), (1, 7), (7, 10), (1, 10), (10, 12), (12, 11), (10, 11), (7, 8), (8, 12), (7, 12), (7, 12), (12, 10), (7, 10), (1, 10), (10, 13), (1, 13), (13, 15), (15, 14), (13, 14), (10, 11), (11, 15), (10, 15), (10, 15), (15, 13), (10, 13), (1, 13), (13, 4), (1, 4), (4, 16), (16, 6), (4, 6), (13, 14), (14, 16), (13, 16), (13, 16), (16, 4), (13, 4), (17, 19), (19, 18), (17, 18), (18, 20), (20, 3), (18, 3), (19, 21), (21, 20), (19, 20), (19, 20), (20, 18), (19, 18), (21, 24), (24, 22), (21, 22), (22, 25), (25, 23), (22, 23), (24, 8), (8, 25), (24, 25), (24, 25), (25, 22), (24, 22), (23, 28), (28, 26), (23, 26), (26, 29), (29, 27), (26, 27), (28, 11), (11, 29), (28, 29), (28, 29), (29, 26), (28, 26), (27, 32), (32, 30), (27, 30), (30, 33), (33, 31), (30, 31), (32, 14), (14, 33), (32, 33), (32, 33), (33, 30), (32, 30), (31, 35), (35, 34), (31, 34), (34, 36), (36, 17), (34, 17), (35, 6), (6, 36), (35, 36), (35, 36), (36, 34), (35, 34), (3, 20), (20, 9), (3, 9), (9, 24), (24, 8), (9, 8), (20, 21), (21, 24), (20, 24), (20, 24), (24, 9), (20, 9), (8, 25), (25, 12), (8, 12), (12, 28), (28, 11), (12, 11), (25, 23), (23, 28), (25, 28), (25, 28), (28, 12), (25, 12), (11, 29), (29, 15), (11, 15), (15, 32), (32, 14), (15, 14), (29, 27), (27, 32), (29, 32), (29, 32), (32, 15), (29, 15), (14, 33), (33, 16), (14, 16), (16, 35), (35, 6), (16, 6), (33, 31), (31, 35), (33, 35), (33, 35), (35, 16), (33, 16), (6, 36), (36, 5), (6, 5), (5, 18), (18, 3), (5, 3), (36, 17), (17, 18), (36, 18), (36, 18), (18, 5), (36, 5), (37, 39), (39, 38), (37, 38), (38, 19), (19, 17), (38, 17), (39, 21), (21, 19), (39, 19), (39, 19), (19, 38), (39, 38), (37, 38), (38, 40), (37, 40), (40, 34), (34, 31), (40, 31), (38, 17), (17, 34), (38, 34), (38, 34), (34, 40), (38, 40), (37, 40), (40, 41), (37, 41), (41, 30), (30, 27), (41, 27), (40, 31), (31, 30), (40, 30), (40, 30), (30, 41), (40, 41), (37, 41), (41, 42), (37, 42), (42, 26), (26, 23), (42, 23), (41, 27), (27, 26), (41, 26), (41, 26), (26, 42), (41, 42), (37, 42), (42, 39), (37, 39), (39, 22), (22, 21), (39, 21), (42, 23), (23, 22), (42, 22), (42, 22), (22, 39), (42, 39)]

/-- The deduplicated edge list at frequency 2, materialised. -/
def edgeLit2 : List (Nat × Nat) :=
  [(1, 4), (2, 4), (1, 2), (2, 5), (3, 5), (2, 3), (4, 6), (5, 6), (4, 5), (2, 7), (1, 7), (7, 9), (8, 9), (7, 8), (3, 9), (2, 9), (7, 10), (1, 10), (10, 12), (11, 12), (10, 11), (8, 12), (7, 12), (10, 13), (1, 13), (13, 15), (14, 15), (13, 14), (11, 15), (10, 15), (4, 13), (4, 16), (6, 16), (14, 16), (13, 16), (17, 19), (18, 19), (17, 18), (18, 20), (3, 20), (3, 18), (19, 21), (20, 21), (19, 20), (21, 24), (22, 24), (21, 22), (22, 25), (23, 25), (22, 23), (8, 24), (8, 25), (24, 25), (23, 28), (26, 28), (23, 26), (26, 29), (27, 29), (26, 27), (11, 28), (11, 29), (28, 29), (27, 32), (30, 32), (27, 30), (30, 33), (31, 33), (30, 31), (14, 32), (14, 33), (32, 33), (31, 35), (34, 35), (31, 34), (34, 36), (17, 36), (17, 34), (6, 35), (6, 36), (35, 36), (9, 20), (9, 24), (20, 24), (12, 25), (12, 28), (25, 28), (15, 29), (15, 32), (29, 32), (16, 33), (16, 35), (33, 35), (5, 36), (5, 18), (18, 36), (37, 39), (38, 39), (37, 38), (19, 38), (17, 38), (21, 39), (19, 39), (38, 40), (37, 40), (34, 40), (31, 40), (34, 38), (40, 41), (37, 41), (30, 41), (27, 41), (30, 40), (41, 42), (37, 42), (26, 42), (23, 42), (26, 41), (39, 42), (22, 39), (22, 42)]

/-- The adjacency table at frequency 2, materialised. -/
def tabLit2 : List (List Nat) :=
  [[4, 2, 7, 10, 13], [4, 1, 5, 3, 7, 9], [5, 2, 9, 20, 18], [1, 2, 6, 5, 13, 16], [2, 3, 6, 4, 36, 18], [4, 5, 16, 35, 36], [2, 1, 9, 8, 10, 12], [9, 7, 12, 24, 25], [7, 8, 3, 2, 20, 24], [7, 1, 12, 11, 13, 15], [12, 10, 15, 28, 29], [10, 11, 8, 7, 25, 28], [10, 1, 15, 14, 4, 16], [15, 13, 16, 32, 33], [13, 14, 11, 10, 29, 32], [4, 6, 14, 13, 33, 35], [19, 18, 36, 34, 38], [19, 17, 20, 3, 5, 36], [17, 18, 21, 20, 38, 39], [18, 3, 21, 19, 9, 24], [19, 20, 24, 22, 39], [24, 21, 25, 23, 39, 42], [25, 22, 28, 26, 42], [21, 22, 8, 25, 9, 20], [22, 23, 8, 24, 12, 28], [28, 23, 29, 27, 42, 41], [29, 26, 32, 30, 41], [23, 26, 11, 29, 12, 25], [26, 27, 11, 28, 15, 32], [32, 27, 33, 31, 41, 40], [33, 30, 35, 34, 40], [27, 30, 14, 33, 15, 29], [30, 31, 14, 32, 16, 35], [35, 31, 36, 17, 40, 38], [31, 34, 6, 36, 16, 33], [34, 17, 6, 35, 5, 18], [39, 38, 40, 41, 42], [39, 37, 19, 17, 40, 34], [37, 38, 21, 19, 42, 22], [38, 37, 34, 31, 41, 30], [40, 37, 30, 27, 42, 26], [41, 37, 26, 23, 39, 22]]

/-- A quarter of the raw triangle_list output at frequency 2. -/
def trisChunkA : List (Nat × Nat × Nat) :=
  [(1, 2, 4), (1, 2, 7), (1, 2, 4), (1, 4, 13), (1, 2, 7), (1, 7, 10), (1, 7, 10), (1, 10, 13), (1, 4, 13), (1, 10, 13), (1, 2, 4), (1, 2, 7), (2, 3, 5), (2, 3, 9), (1, 2, 4), (2, 4, 5), (2, 3, 5), (2, 4, 5), (1, 2, 7), (2, 7, 9), (2, 3, 9), (2, 7, 9), (2, 3, 5), (2, 3, 9), (2, 3, 5), (3, 5, 18), (2, 3, 9), (3, 9, 20), (3, 5, 18), (3, 18, 20), (3, 9, 20), (3, 18, 20), (1, 2, 4), (1, 4, 13), (1, 2, 4), (2, 4, 5), (2, 4, 5), (4, 5, 6), (4, 5, 6), (4, 6, 16), (1, 4, 13), (4, 13, 16), (4, 6, 16), (4, 13, 16), (2, 3, 5), (2, 4, 5), (2, 3, 5), (3, 5, 18), (2, 4, 5), (4, 5, 6), (4, 5, 6), (5, 6, 36), (3, 5, 18), (5, 18, 36), (5, 6, 36), (5, 18, 36), (4, 5, 6), (4, 6, 16), (4, 5, 6), (5, 6, 36), (4, 6, 16), (6, 16, 35), (6, 16, 35), (6, 35, 36), (5, 6, 36), (6, 35, 36), (1, 2, 7), (1, 7, 10), (1, 2, 7), (2, 7, 9), (7, 8, 9), (7, 8, 12), (2, 7, 9), (7, 8, 9), (1, 7, 10), (7, 10, 12), (7, 8, 12), (7, 10, 12), (7, 8, 9), (7, 8, 12), (7, 8, 9), (8, 9, 24), (7, 8, 12), (8, 12, 25), (8, 9, 24), (8, 24, 25), (8, 12, 25), (8, 24, 25), (2, 3, 9), (2, 7, 9), (2, 3, 9), (3, 9, 20), (2, 7, 9), (7, 8, 9), (7, 8, 9), (8, 9, 24), (3, 9, 20), (9, 20, 24), (8, 9, 24), (9, 20, 24), (1, 7, 10), (1, 10, 13), (1, 7, 10), (7, 10, 12), (10, 11, 12), (10, 11, 15), (7, 10, 12), (10, 11, 12), (1, 10, 13), (10, 13, 15), (10, 11, 15)]

/-- A quarter of the raw triangle_list output at frequency 2. -/
def trisChunkB : List (Nat × Nat × Nat) :=
  [(10, 13, 15), (10, 11, 12), (10, 11, 15), (10, 11, 12), (11, 12, 28), (10, 11, 15), (11, 15, 29), (11, 12, 28), (11, 28, 29), (11, 15, 29), (11, 28, 29), (7, 8, 12), (7, 10, 12), (7, 8, 12), (8, 12, 25), (7, 10, 12), (10, 11, 12), (10, 11, 12), (11, 12, 28), (8, 12, 25), (12, 25, 28), (11, 12, 28), (12, 25, 28), (1, 4, 13), (1, 10, 13), (1, 4, 13), (4, 13, 16), (1, 10, 13), (10, 13, 15), (13, 14, 15), (13, 14, 16), (10, 13, 15), (13, 14, 15), (4, 13, 16), (13, 14, 16), (13, 14, 15), (13, 14, 16), (13, 14, 15), (14, 15, 32), (13, 14, 16), (14, 16, 33), (14, 15, 32), (14, 32, 33), (14, 16, 33), (14, 32, 33), (10, 11, 15), (10, 13, 15), (10, 11, 15), (11, 15, 29), (10, 13, 15), (13, 14, 15), (13, 14, 15), (14, 15, 32), (11, 15, 29), (15, 29, 32), (14, 15, 32), (15, 29, 32), (4, 6, 16), (4, 13, 16), (4, 6, 16), (6, 16, 35), (4, 13, 16), (13, 14, 16), (13, 14, 16), (14, 16, 33), (14, 16, 33), (16, 33, 35), (6, 16, 35), (16, 33, 35), (17, 18, 19), (17, 18, 36), (17, 18, 19), (17, 19, 38), (17, 34, 36), (17, 34, 38), (17, 18, 36), (17, 34, 36), (17, 19, 38), (17, 34, 38), (3, 5, 18), (3, 18, 20), (3, 5, 18), (5, 18, 36), (17, 18, 19), (17, 18, 36), (17, 18, 19), (18, 19, 20), (3, 18, 20), (18, 19, 20), (5, 18, 36), (17, 18, 36), (17, 18, 19), (17, 19, 38), (17, 18, 19), (18, 19, 20), (18, 19, 20), (19, 20, 21), (19, 20, 21), (19, 21, 39), (17, 19, 38), (19, 38, 39), (19, 21, 39), (19, 38, 39), (3, 9, 20), (3, 18, 20), (3, 9, 20), (9, 20, 24), (3, 18, 20), (18, 19, 20), (18, 19, 20), (19, 20, 21)]

/-- A quarter of the raw triangle_list output at frequency 2. -/
def trisChunkC : List (Nat × Nat × Nat) :=
  [(19, 20, 21), (20, 21, 24), (9, 20, 24), (20, 21, 24), (19, 20, 21), (19, 21, 39), (19, 20, 21), (20, 21, 24), (21, 22, 24), (21, 22, 39), (20, 21, 24), (21, 22, 24), (19, 21, 39), (21, 22, 39), (21, 22, 24), (21, 22, 39), (22, 23, 25), (21, 22, 24), (22, 24, 25), (22, 23, 25), (22, 24, 25), (21, 22, 39), (22, 23, 25), (22, 23, 25), (23, 25, 28), (23, 26, 28), (23, 25, 28), (23, 26, 28), (8, 9, 24), (8, 24, 25), (8, 9, 24), (9, 20, 24), (9, 20, 24), (20, 21, 24), (20, 21, 24), (21, 22, 24), (21, 22, 24), (22, 24, 25), (8, 24, 25), (22, 24, 25), (8, 12, 25), (8, 24, 25), (8, 12, 25), (12, 25, 28), (22, 23, 25), (22, 24, 25), (22, 23, 25), (23, 25, 28), (8, 24, 25), (22, 24, 25), (12, 25, 28), (23, 25, 28), (23, 26, 28), (26, 27, 29), (26, 27, 41), (23, 26, 28), (26, 28, 29), (26, 27, 29), (26, 28, 29), (26, 27, 41), (26, 27, 29), (26, 27, 41), (26, 27, 29), (27, 29, 32), (27, 30, 32), (27, 30, 41), (27, 29, 32), (27, 30, 32), (26, 27, 41), (27, 30, 41), (11, 12, 28), (11, 28, 29), (11, 12, 28), (12, 25, 28), (23, 25, 28), (23, 26, 28), (12, 25, 28), (23, 25, 28), (23, 26, 28), (26, 28, 29), (11, 28, 29), (26, 28, 29), (11, 15, 29), (11, 28, 29), (11, 15, 29), (15, 29, 32), (26, 27, 29), (26, 28, 29), (26, 27, 29), (27, 29, 32), (11, 28, 29), (26, 28, 29), (15, 29, 32), (27, 29, 32), (27, 30, 32), (27, 30, 41), (30, 31, 33), (30, 31, 40), (27, 30, 32), (30, 32, 33), (30, 31, 33), (30, 32, 33), (30, 31, 40), (30, 40, 41), (27, 30, 41), (30, 40, 41), (30, 31, 33), (30, 31, 40), (30, 31, 33), (31, 33, 35), (31, 34, 35)]

/-- A quarter of the raw triangle_list output at frequency 2. -/
def trisChunkD : List (Nat × Nat × Nat) :=
  [(31, 34, 40), (31, 33, 35), (31, 34, 35), (30, 31, 40), (31, 34, 40), (14, 15, 32), (14, 32, 33), (14, 15, 32), (15, 29, 32), (27, 29, 32), (27, 30, 32), (15, 29, 32), (27, 29, 32), (27, 30, 32), (30, 32, 33), (14, 32, 33), (30, 32, 33), (14, 16, 33), (14, 32, 33), (14, 16, 33), (16, 33, 35), (30, 31, 33), (30, 32, 33), (30, 31, 33), (31, 33, 35), (14, 32, 33), (30, 32, 33), (16, 33, 35), (31, 33, 35), (17, 34, 36), (17, 34, 38), (31, 34, 35), (31, 34, 40), (31, 34, 35), (34, 35, 36), (17, 34, 36), (34, 35, 36), (17, 34, 38), (34, 38, 40), (31, 34, 40), (34, 38, 40), (6, 16, 35), (6, 35, 36), (6, 16, 35), (16, 33, 35), (31, 33, 35), (31, 34, 35), (16, 33, 35), (31, 33, 35), (31, 34, 35), (34, 35, 36), (6, 35, 36), (34, 35, 36), (5, 6, 36), (5, 18, 36), (5, 6, 36), (6, 35, 36), (17, 18, 36), (17, 34, 36), (5, 18, 36), (17, 18, 36), (17, 34, 36), (34, 35, 36), (6, 35, 36), (34, 35, 36), (37, 38, 39), (37, 38, 40), (37, 38, 39), (37, 38, 40), (37, 40, 41), (37, 40, 41), (17, 19, 38), (17, 34, 38), (17, 19, 38), (19, 38, 39), (17, 34, 38), (34, 38, 40), (37, 38, 39), (37, 38, 40), (19, 38, 39), (37, 38, 39), (34, 38, 40), (37, 38, 40), (19, 21, 39), (19, 38, 39), (19, 21, 39), (21, 22, 39), (21, 22, 39), (37, 38, 39), (19, 38, 39), (37, 38, 39), (30, 31, 40), (30, 40, 41), (30, 31, 40), (31, 34, 40), (31, 34, 40), (34, 38, 40), (37, 38, 40), (37, 40, 41), (34, 38, 40), (37, 38, 40), (30, 40, 41), (37, 40, 41), (26, 27, 41), (26, 27, 41), (27, 30, 41), (27, 30, 41), (30, 40, 41), (37, 40, 41), (30, 40, 41), (37, 40, 41)]

/-- The full (pre-deduplication) triangle_list output at frequency 2. -/
def trisLit2 : List (Nat × Nat × Nat) :=
  trisChunkA ++ (trisChunkB ++ (trisChunkC ++ trisChunkD))

/-- An intermediate accumulator of the duplicate-removal fold. -/
def accLitA : List (Nat × Nat × Nat) :=
  [(1, 2, 4), (1, 2, 7), (1, 4, 13), (1, 7, 10), (1, 10, 13), (2, 3, 5), (2, 3, 9), (2, 4, 5), (2, 7, 9), (3, 5, 18), (3, 9, 20), (3, 18, 20), (4, 5, 6), (4, 6, 16), (4, 13, 16), (5, 6, 36), (5, 18, 36), (6, 16, 35), (6, 35, 36), (7, 8, 9), (7, 8, 12), (7, 10, 12), (8, 9, 24), (8, 12, 25), (8, 24, 25), (9, 20, 24), (10, 11, 12), (10, 11, 15), (10, 13, 15)]

/-- An intermediate accumulator of the duplicate-removal fold. -/
def accLitB : List (Nat × Nat × Nat) :=
  [(1, 2, 4), (1, 2, 7), (1, 4, 13), (1, 7, 10), (1, 10, 13), (2, 3, 5), (2, 3, 9), (2, 4, 5), (2, 7, 9), (3, 5, 18), (3, 9, 20), (3, 18, 20), (4, 5, 6), (4, 6, 16), (4, 13, 16), (5, 6, 36), (5, 18, 36), (6, 16, 35), (6, 35, 36), (7, 8, 9), (7, 8, 12), (7, 10, 12), (8, 9, 24), (8, 12, 25), (8, 24, 25), (9, 20, 24), (10, 11, 12), (10, 11, 15), (10, 13, 15), (11, 12, 28), (11, 15, 29), (11, 28, 29), (12, 25, 28), (13, 14, 15), (13, 14, 16), (14, 15, 32), (14, 16, 33), (14, 32, 33), (15, 29, 32), (16, 33, 35), (17, 18, 19), (17, 18, 36), (17, 19, 38), (17, 34, 36), (17, 34, 38), (18, 19, 20), (19, 20, 21), (19, 21, 39), (19, 38, 39)]

/-- An intermediate accumulator of the duplicate-removal fold. -/
def accLitC : List (Nat × Nat × Nat) :=
  [(1, 2, 4), (1, 2, 7), (1, 4, 13), (1, 7, 10), (1, 10, 13), (2, 3, 5), (2, 3, 9), (2, 4, 5), (2, 7, 9), (3, 5, 18), (3, 9, 20), (3, 18, 20), (4, 5, 6), (4, 6, 16), (4, 13, 16), (5, 6, 36), (5, 18, 36), (6, 16, 35), (6, 35, 36), (7, 8, 9), (7, 8, 12), (7, 10, 12), (8, 9, 24), (8, 12, 25), (8, 24, 25), (9, 20, 24), (10, 11, 12), (10, 11, 15), (10, 13, 15), (11, 12, 28), (11, 15, 29), (11, 28, 29), (12, 25, 28), (13, 14, 15), (13, 14, 16), (14, 15, 32), (14, 16, 33), (14, 32, 33), (15, 29, 32), (16, 33, 35), (17, 18, 19), (17, 18, 36), (17, 19, 38), (17, 34, 36), (17, 34, 38), (18, 19, 20), (19, 20, 21), (19, 21, 39), (19, 38, 39), (20, 21, 24), (21, 22, 24), (21, 22, 39), (22, 23, 25), (22, 24, 25), (23, 25, 28), (23, 26, 28), (26, 27, 29), (26, 27, 41), (26, 28, 29), (27, 29, 32), (27, 30, 32), (27, 30, 41), (30, 31, 33), (30, 31, 40), (30, 32, 33), (30, 40, 41), (31, 33, 35), (31, 34, 35)]

/-- The final deduplicated triangle list at frequency 2, materialised. -/
def finalLit2 : List (Nat × Nat × Nat) :=
  [(1, 2, 4), (1, 2, 7), (1, 4, 13), (1, 7, 10), (1, 10, 13), (2, 3, 5), (2, 3, 9), (2, 4, 5), (2, 7, 9), (3, 5, 18), (3, 9, 20), (3, 18, 20), (4, 5, 6), (4, 6, 16), (4, 13, 16), (5, 6, 36), (5, 18, 36), (6, 16, 35), (6, 35, 36), (7, 8, 9), (7, 8, 12), (7, 10, 12), (8, 9, 24), (8, 12, 25), (8, 24, 25), (9, 20, 24), (10, 11, 12), (10, 11, 15), (10, 13, 15), (11, 12, 28), (11, 15, 29), (11, 28, 29), (12, 25, 28), (13, 14, 15), (13, 14, 16), (14, 15, 32), (14, 16, 33), (14, 32, 33), (15, 29, 32), (16, 33, 35), (17, 18, 19), (17, 18, 36), (17, 19, 38), (17, 34, 36), (17, 34, 38), (18, 19, 20), (19, 20, 21), (19, 21, 39), (19, 38, 39), (20, 21, 24), (21, 22, 24), (21, 22, 39), (22, 23, 25), (22, 24, 25), (23, 25, 28), (23, 26, 28), (26, 27, 29), (26, 27, 41), (26, 28, 29), (27, 29, 32), (27, 30, 32), (27, 30, 41), (30, 31, 33), (30, 31, 40), (30, 32, 33), (30, 40, 41), (31, 33, 35), (31, 34, 35), (31, 34, 40), (34, 35, 36), (34, 38, 40), (37, 38, 39), (37, 38, 40), (37, 40, 41)]

/-! ## Staged evaluation lemmas for the frequency-2 pipeline -/

set_option maxRecDepth 1000000
set_option maxHeartbeats 4000000

lemma canonPoints_two : canonPoints 2 = canonLit2 := by decide

lemma rawEdgesOn_two : rawEdgesOn canonLit2 2 = rawLit2 := by decide

lemma dedupEdges_two : dedupEdges rawLit2 = edgeLit2 := by decide

lemma hubTable_two : hubTable edgeLit2 42 = tabLit2 := by decide

lemma slice2_1 : innerBC 42 (hubFun tabLit2) 1 =
    [(1, 2, 4), (1, 2, 7), (1, 2, 4), (1, 4, 13), (1, 2, 7), (1, 7, 10), (1, 7, 10), (1, 10, 13), (1, 4, 13), (1, 10, 13)] := by decide

lemma slice2_2 : innerBC 42 (hubFun tabLit2) 2 =
    [(1, 2, 4), (1, 2, 7), (2, 3, 5), (2, 3, 9), (1, 2, 4), (2, 4, 5), (2, 3, 5), (2, 4, 5), (1, 2, 7), (2, 7, 9), (2, 3, 9), (2, 7, 9)] := by decide

lemma slice2_3 : innerBC 42 (hubFun tabLit2) 3 =
    [(2, 3, 5), (2, 3, 9), (2, 3, 5), (3, 5, 18), (2, 3, 9), (3, 9, 20), (3, 5, 18), (3, 18, 20), (3, 9, 20), (3, 18, 20)] := by decide

lemma slice2_4 : innerBC 42 (hubFun tabLit2) 4 =
    [(1, 2, 4), (1, 4, 13), (1, 2, 4), (2, 4, 5), (2, 4, 5), (4, 5, 6), (4, 5, 6), (4, 6, 16), (1, 4, 13), (4, 13, 16), (4, 6, 16), (4, 13, 16)] := by decide

lemma slice2_5 : innerBC 42 (hubFun tabLit2) 5 =
    [(2, 3, 5), (2, 4, 5), (2, 3, 5), (3, 5, 18), (2, 4, 5), (4, 5, 6), (4, 5, 6), (5, 6, 36), (3, 5, 18), (5, 18, 36), (5, 6, 36), (5, 18, 36)] := by decide

lemma slice2_6 : innerBC 42 (hubFun tabLit2) 6 =
    [(4, 5, 6), (4, 6, 16), (4, 5, 6), (5, 6, 36), (4, 6, 16), (6, 16, 35), (6, 16, 35), (6, 35, 36), (5, 6, 36), (6, 35, 36)] := by decide

lemma slice2_7 : innerBC 42 (hubFun tabLit2) 7 =
    [(1, 2, 7), (1, 7, 10), (1, 2, 7), (2, 7, 9), (7, 8, 9), (7, 8, 12), (2, 7, 9), (7, 8, 9), (1, 7, 10), (7, 10, 12), (7, 8, 12), (7, 10, 12)] := by decide

lemma slice2_8 : innerBC 42 (hubFun tabLit2) 8 =
    [(7, 8, 9), (7, 8, 12), (7, 8, 9), (8, 9, 24), (7, 8, 12), (8, 12, 25), (8, 9, 24), (8, 24, 25), (8, 12, 25), (8, 24, 25)] := by decide

lemma slice2_9 : innerBC 42 (hubFun tabLit2) 9 =
    [(2, 3, 9), (2, 7, 9), (2, 3, 9), (3, 9, 20), (2, 7, 9), (7, 8, 9), (7, 8, 9), (8, 9, 24), (3, 9, 20), (9, 20, 24), (8, 9, 24), (9, 20, 24)] := by decide

lemma slice2_10 : innerBC 42 (hubFun tabLit2) 10 =
    [(1, 7, 10), (1, 10, 13), (1, 7, 10), (7, 10, 12), (10, 11, 12), (10, 11, 15), (7, 10, 12), (10, 11, 12), (1, 10, 13), (10, 13, 15), (10, 11, 15), (10, 13, 15)] := by decide

lemma slice2_11 : innerBC 42 (hubFun tabLit2) 11 =
    [(10, 11, 12), (10, 11, 15), (10, 11, 12), (11, 12, 28), (10, 11, 15), (11, 15, 29), (11, 12, 28), (11, 28, 29), (11, 15, 29), (11, 28, 29)] := by decide

lemma slice2_12 : innerBC 42 (hubFun tabLit2) 12 =
    [(7, 8, 12), (7, 10, 12), (7, 8, 12), (8, 12, 25), (7, 10, 12), (10, 11, 12), (10, 11, 12), (11, 12, 28), (8, 12, 25), (12, 25, 28), (11, 12, 28), (12, 25, 28)] := by decide

lemma slice2_13 : innerBC 42 (hubFun tabLit2) 13 =
    [(1, 4, 13), (1, 10, 13), (1, 4, 13), (4, 13, 16), (1, 10, 13), (10, 13, 15), (13, 14, 15), (13, 14, 16), (10, 13, 15), (13, 14, 15), (4, 13, 16), (13, 14, 16)] := by decide

lemma slice2_14 : innerBC 42 (hubFun tabLit2) 14 =
    [(13, 14, 15), (13, 14, 16), (13, 14, 15), (14, 15, 32), (13, 14, 16), (14, 16, 33), (14, 15, 32), (14, 32, 33), (14, 16, 33), (14, 32, 33)] := by decide

lemma slice2_15 : innerBC 42 (hubFun tabLit2) 15 =
    [(10, 11, 15), (10, 13, 15), (10, 11, 15), (11, 15, 29), (10, 13, 15), (13, 14, 15), (13, 14, 15), (14, 15, 32), (11, 15, 29), (15, 29, 32), (14, 15, 32), (15, 29, 32)] := by decide

lemma slice2_16 : innerBC 42 (hubFun tabLit2) 16 =
    [(4, 6, 16), (4, 13, 16), (4, 6, 16), (6, 16, 35), (4, 13, 16), (13, 14, 16), (13, 14, 16), (14, 16, 33), (14, 16, 33), (16, 33, 35), (6, 16, 35), (16, 33, 35)] := by decide

lemma slice2_17 : innerBC 42 (hubFun tabLit2) 17 =
    [(17, 18, 19), (17, 18, 36), (17, 18, 19), (17, 19, 38), (17, 34, 36), (17, 34, 38), (17, 18, 36), (17, 34, 36), (17, 19, 38), (17, 34, 38)] := by decide

lemma slice2_18 : innerBC 42 (hubFun tabLit2) 18 =
    [(3, 5, 18), (3, 18, 20), (3, 5, 18), (5, 18, 36), (17, 18, 19), (17, 18, 36), (17, 18, 19), (18, 19, 20), (3, 18, 20), (18, 19, 20), (5, 18, 36), (17, 18, 36)] := by decide

lemma slice2_19 : innerBC 42 (hubFun tabLit2) 19 =
    [(17, 18, 19), (17, 19, 38), (17, 18, 19), (18, 19, 20), (18, 19, 20), (19, 20, 21), (19, 20, 21), (19, 21, 39), (17, 19, 38), (19, 38, 39), (19, 21, 39), (19, 38, 39)] := by decide

lemma slice2_20 : innerBC 42 (hubFun tabLit2) 20 =
    [(3, 9, 20), (3, 18, 20), (3, 9, 20), (9, 20, 24), (3, 18, 20), (18, 19, 20), (18, 19, 20), (19, 20, 21), (19, 20, 21), (20, 21, 24), (9, 20, 24), (20, 21, 24)] := by decide

lemma slice2_21 : innerBC 42 (hubFun tabLit2) 21 =
    [(19, 20, 21), (19, 21, 39), (19, 20, 21), (20, 21, 24), (21, 22, 24), (21, 22, 39), (20, 21, 24), (21, 22, 24), (19, 21, 39), (21, 22, 39)] := by decide

lemma slice2_22 : innerBC 42 (hubFun tabLit2) 22 =
    [(21, 22, 24), (21, 22, 39), (22, 23, 25), (21, 22, 24), (22, 24, 25), (22, 23, 25), (22, 24, 25), (21, 22, 39)] := by decide

lemma slice2_23 : innerBC 42 (hubFun tabLit2) 23 =
    [(22, 23, 25), (22, 23, 25), (23, 25, 28), (23, 26, 28), (23, 25, 28), (23, 26, 28)] := by decide

lemma slice2_24 : innerBC 42 (hubFun tabLit2) 24 =
    [(8, 9, 24), (8, 24, 25), (8, 9, 24), (9, 20, 24), (9, 20, 24), (20, 21, 24), (20, 21, 24), (21, 22, 24), (21, 22, 24), (22, 24, 25), (8, 24, 25), (22, 24, 25)] := by decide

lemma slice2_25 : innerBC 42 (hubFun tabLit2) 25 =
    [(8, 12, 25), (8, 24, 25), (8, 12, 25), (12, 25, 28), (22, 23, 25), (22, 24, 25), (22, 23, 25), (23, 25, 28), (8, 24, 25), (22, 24, 25), (12, 25, 28), (23, 25, 28)] := by decide

lemma slice2_26 : innerBC 42 (hubFun tabLit2) 26 =
    [(23, 26, 28), (26, 27, 29), (26, 27, 41), (23, 26, 28), (26, 28, 29), (26, 27, 29), (26, 28, 29), (26, 27, 41)] := by decide

lemma slice2_27 : innerBC 42 (hubFun tabLit2) 27 =
    [(26, 27, 29), (26, 27, 41), (26, 27, 29), (27, 29, 32), (27, 30, 32), (27, 30, 41), (27, 29, 32), (27, 30, 32), (26, 27, 41), (27, 30, 41)] := by decide

lemma slice2_28 : innerBC 42 (hubFun tabLit2) 28 =
    [(11, 12, 28), (11, 28, 29), (11, 12, 28), (12, 25, 28), (23, 25, 28), (23, 26, 28), (12, 25, 28), (23, 25, 28), (23, 26, 28), (26, 28, 29), (11, 28, 29), (26, 28, 29)] := by decide

lemma slice2_29 : innerBC 42 (hubFun tabLit2) 29 =
    [(11, 15, 29), (11, 28, 29), (11, 15, 29), (15, 29, 32), (26, 27, 29), (26, 28, 29), (26, 27, 29), (27, 29, 32), (11, 28, 29), (26, 28, 29), (15, 29, 32), (27, 29, 32)] := by decide

lemma slice2_30 : innerBC 42 (hubFun tabLit2) 30 =
    [(27, 30, 32), (27, 30, 41), (30, 31, 33), (30, 31, 40), (27, 30, 32), (30, 32, 33), (30, 31, 33), (30, 32, 33), (30, 31, 40), (30, 40, 41), (27, 30, 41), (30, 40, 41)] := by decide

lemma slice2_31 : innerBC 42 (hubFun tabLit2) 31 =
    [(30, 31, 33), (30, 31, 40), (30, 31, 33), (31, 33, 35), (31, 34, 35), (31, 34, 40), (31, 33, 35), (31, 34, 35), (30, 31, 40), (31, 34, 40)] := by decide

lemma slice2_32 : innerBC 42 (hubFun tabLit2) 32 =
    [(14, 15, 32), (14, 32, 33), (14, 15, 32), (15, 29, 32), (27, 29, 32), (27, 30, 32), (15, 29, 32), (27, 29, 32), (27, 30, 32), (30, 32, 33), (14, 32, 33), (30, 32, 33)] := by decide

lemma slice2_33 : innerBC 42 (hubFun tabLit2) 33 =
    [(14, 16, 33), (14, 32, 33), (14, 16, 33), (16, 33, 35), (30, 31, 33), (30, 32, 33), (30, 31, 33), (31, 33, 35), (14, 32, 33), (30, 32, 33), (16, 33, 35), (31, 33, 35)] := by decide

lemma slice2_34 : innerBC 42 (hubFun tabLit2) 34 =
    [(17, 34, 36), (17, 34, 38), (31, 34, 35), (31, 34, 40), (31, 34, 35), (34, 35, 36), (17, 34, 36), (34, 35, 36), (17, 34, 38), (34, 38, 40), (31, 34, 40), (34, 38, 40)] := by decide

lemma slice2_35 : innerBC 42 (hubFun tabLit2) 35 =
    [(6, 16, 35), (6, 35, 36), (6, 16, 35), (16, 33, 35), (31, 33, 35), (31, 34, 35), (16, 33, 35), (31, 33, 35), (31, 34, 35), (34, 35, 36), (6, 35, 36), (34, 35, 36)] := by decide

lemma slice2_36 : innerBC 42 (hubFun tabLit2) 36 =
    [(5, 6, 36), (5, 18, 36), (5, 6, 36), (6, 35, 36), (17, 18, 36), (17, 34, 36), (5, 18, 36), (17, 18, 36), (17, 34, 36), (34, 35, 36), (6, 35, 36), (34, 35, 36)] := by decide

lemma slice2_37 : innerBC 42 (hubFun tabLit2) 37 =
    [(37, 38, 39), (37, 38, 40), (37, 38, 39), (37, 38, 40), (37, 40, 41), (37, 40, 41)] := by decide

lemma slice2_38 : innerBC 42 (hubFun tabLit2) 38 =
    [(17, 19, 38), (17, 34, 38), (17, 19, 38), (19, 38, 39), (17, 34, 38), (34, 38, 40), (37, 38, 39), (37, 38, 40), (19, 38, 39), (37, 38, 39), (34, 38, 40), (37, 38, 40)] := by decide

lemma slice2_39 : innerBC 42 (hubFun tabLit2) 39 =
    [(19, 21, 39), (19, 38, 39), (19, 21, 39), (21, 22, 39), (21, 22, 39), (37, 38, 39), (19, 38, 39), (37, 38, 39)] := by decide

lemma slice2_40 : innerBC 42 (hubFun tabLit2) 40 =
    [(30, 31, 40), (30, 40, 41), (30, 31, 40), (31, 34, 40), (31, 34, 40), (34, 38, 40), (37, 38, 40), (37, 40, 41), (34, 38, 40), (37, 38, 40), (30, 40, 41), (37, 40, 41)] := by decide

lemma slice2_41 : innerBC 42 (hubFun tabLit2) 41 =
    [(26, 27, 41), (26, 27, 41), (27, 30, 41), (27, 30, 41), (30, 40, 41), (37, 40, 41), (30, 40, 41), (37, 40, 41)] := by decide

lemma nd_chunkA : List.foldl nonDupStep [] trisChunkA = accLitA := by decide

lemma nd_chunkB : List.foldl nonDupStep accLitA trisChunkB = accLitB := by decide

lemma nd_chunkC : List.foldl nonDupStep accLitB trisChunkC = accLitC := by decide

lemma nd_chunkD : List.foldl nonDupStep accLitC trisChunkD = finalLit2 := by decide

lemma non_duplicates_two : non_duplicates trisLit2 = finalLit2 := by
  show List.foldl nonDupStep [] (trisChunkA ++ (trisChunkB ++ (trisChunkC ++ trisChunkD))) = finalLit2
  rw [List.foldl_append, List.foldl_append, List.foldl_append]
  rw [nd_chunkA, nd_chunkB, nd_chunkC, nd_chunkD]

lemma pyRange_42 : pyRange 1 42 = [1, 2, 3, 4, 5, 6, 7, 8, 9, 10, 11, 12, 13, 14, 15, 16, 17, 18, 19, 20, 21, 22, 23, 24, 25, 26, 27, 28, 29, 30, 31, 32, 33, 34, 35, 36, 37, 38, 39, 40, 41] := by decide

lemma triangle_list_two : triangle_list 42 (hubFun tabLit2) = trisLit2 := by
  show (pyRange 1 42).flatMap (fun a => innerBC 42 (hubFun tabLit2) a) = trisLit2
  rw [pyRange_42]
  simp only [List.flatMap_cons, List.flatMap_nil, List.append_nil]
  rw [slice2_1, slice2_2, slice2_3, slice2_4, slice2_5, slice2_6, slice2_7, slice2_8, slice2_9, slice2_10, slice2_11, slice2_12, slice2_13, slice2_14, slice2_15, slice2_16, slice2_17, slice2_18, slice2_19, slice2_20, slice2_21, slice2_22, slice2_23, slice2_24, slice2_25, slice2_26, slice2_27, slice2_28, slice2_29, slice2_30, slice2_31, slice2_32, slice2_33, slice2_34, slice2_35, slice2_36, slice2_37, slice2_38, slice2_39, slice2_40, slice2_41]
  decide


/-! ## Helper lemmas -/

lemma nonDup_fold_invariant (ts : List (Nat × Nat × Nat))
    (acc : List (Nat × Nat × Nat)) (h1 : acc.Nodup)
    (h2 : ∀ t ∈ acc, t.1 ≠ t.2.1 ∧ t.2.1 ≠ t.2.2 ∧ t.1 ≠ t.2.2) :
    (List.foldl nonDupStep acc ts).Nodup ∧
      ∀ t ∈ List.foldl nonDupStep acc ts,
        t.1 ≠ t.2.1 ∧ t.2.1 ≠ t.2.2 ∧ t.1 ≠ t.2.2 := by
  induction ts generalizing acc with
  | nil => exact ⟨h1, h2⟩
  | cons x xs ih =>
    simp only [List.foldl_cons]
    refine ih (nonDupStep acc x) ?_ ?_
    · unfold nonDupStep
      split
      case isTrue h =>
        rw [List.nodup_append]
        exact ⟨h1, List.nodup_singleton x,
          fun a ha hax => (List.mem_singleton.mp hax ▸ h.1) (List.mem_singleton.mp hax ▸ ha)⟩
      case isFalse h => exact h1
    · intro t ht
      unfold nonDupStep at ht
      split at ht
      case isTrue h =>
        rcases List.mem_append.mp ht with h' | h'
        · exact h2 t h'
        · rw [List.mem_singleton.mp h']
          exact h.2
      case isFalse h => exact h2 t ht

lemma edge_fold_invariant (raw acc : List (Nat × Nat))
    (h1 : ∀ e ∈ acc, e.1 < e.2) (h2 : acc.Nodup) :
    (∀ e ∈ List.foldl edgeStep acc raw, e.1 < e.2) ∧
      (List.foldl edgeStep acc raw).Nodup := by
  induction raw generalizing acc with
  | nil => exact ⟨h1, h2⟩
  | cons x xs ih =>
    simp only [List.foldl_cons]
    refine ih (edgeStep acc x) ?_ ?_
    · intro e he
      unfold edgeStep at he
      split at he
      case isTrue h => exact h1 e he
      case isFalse h =>
        rcases List.mem_append.mp he with h' | h'
        · exact h1 e h'
        · push_neg at h
          rw [List.mem_singleton.mp h']
          have hle : (canonPair x).1 ≤ (canonPair x).2 := by
            unfold canonPair
            rcases le_or_lt x.1 x.2 with hc | hc
            · rw [if_pos hc]; exact hc
            · rw [if_neg (not_le.mpr hc)]; exact hc.le
          exact lt_of_le_of_ne hle h.1
    · unfold edgeStep
      split
      case isTrue h => exact h2
      case isFalse h =>
        push_neg at h
        rw [List.nodup_append]
        exact ⟨h2, List.nodup_singleton _,
          fun a ha hax => (List.mem_singleton.mp hax ▸ h.2) (List.mem_singleton.mp hax ▸ ha)⟩

/-! ## Claim theorems -/

/-- C3: every run of non_duplicates (DomeGenerator.py line 301) contains no
two equal sorted triples and no triple with two equal point ids among its
three entries, whatever list of triples it is given. -/
theorem non_duplicates_nodup_and_distinct (ts : List (Nat × Nat × Nat)) :
    (non_duplicates ts).Nodup ∧
      ∀ t ∈ non_duplicates ts, t.1 ≠ t.2.1 ∧ t.2.1 ≠ t.2.2 ∧ t.1 ≠ t.2.2 :=
  nonDup_fold_invariant ts [] List.nodup_nil (by intro t ht; cases ht)

/-- C7: in the deduplicated edge list (spec 4.4, modelled: the implementing
GeoSphere.py routines are not among the sources), no edge has two equal
endpoints and no two edges reference the same unordered pair of point ids. -/
theorem dedup_edges_sound (raw : List (Nat × Nat)) :
    (∀ e ∈ dedupEdges raw, e.1 ≠ e.2) ∧
      (dedupEdges raw).Pairwise (fun e f =>
        ¬(min e.1 e.2 = min f.1 f.2 ∧ max e.1 e.2 = max f.1 f.2)) := by
  obtain ⟨hs, hn⟩ := edge_fold_invariant raw [] (by intro e he; cases he) List.nodup_nil
  refine ⟨fun e he => ne_of_lt (hs e he), ?_⟩
  refine List.Pairwise.imp_of_mem ?_ hn
  intro e f he hf hne ⟨hmin, hmax⟩
  have he' := hs e he
  have hf' := hs f hf
  rw [min_eq_left he'.le, min_eq_left hf'.le] at hmin
  rw [max_eq_right he'.le, max_eq_right hf'.le] at hmax
  exact hne (Prod.ext hmin hmax)

/-- C1: the triangle search of DomeGenerator.py lines 293-298 iterates a, b
and c over range(1, len(hub_dict)), which stops one short of the largest
point id; on a hub dictionary of three mutually adjacent points 1, 2, 3 the
mutually adjacent triple (1, 2, 3) lies in the id range yet no triple at
all is recorded, contradicting the claim that every mutually adjacent
triple in the id range appears in the output. -/
theorem triangle_search_misses_last_id :
    (2 ∈ hub3 1 ∧ 3 ∈ hub3 1 ∧ 2 ∈ hub3 3) ∧ triangle_list 3 hub3 = [] := by
  decide

/-- C2: the Triangles.txt line format of DomeGenerator.py line 326 has only
two placeholders for its three arguments, so each written line carries two
space-separated indices, not three: on the triangle (1, 2, 3) the file
holds the line with two fields. -/
theorem triangle_line_two_fields :
    triangleLine (1, 2, 3) = "1 2" ∧ trianglesFile [(1, 2, 3)] = "1 2" := by
  decide

/-- C6: with GeoSphere.py absent from the sources, the constructor called
at DomeGenerator.py line 76 is modelled from spec section 7: for a
frequency below 1 or a non-positive radius the run fails fast with a
configuration error and produces no geometry. -/
theorem config_error_fails_fast (f : Int) (R : ℚ) (h : f < 1 ∨ R ≤ 0) :
    geoSphereRun f R = Except.error DomeError.configurationError := by
  unfold geoSphereRun
  rw [if_pos h]

theorem config_error_fails_fast_witness :
    ((0 : Int) < 1 ∨ (1 : ℚ) ≤ 0) ∧
      geoSphereRun 0 1 = Except.error DomeError.configurationError :=
  ⟨Or.inl (by norm_num), config_error_fails_fast 0 1 (Or.inl (by norm_num))⟩

lemma norm3_sp2cart (r theta phi : ℝ) (hr : 0 ≤ r) :
    norm3 (sp2cart r theta phi) = r := by
  show Real.sqrt ((r * Real.cos theta * Real.cos phi) ^ 2 +
    (r * Real.cos theta * Real.sin phi) ^ 2 + (r * Real.sin theta) ^ 2) = r
  have h1 : (r * Real.cos theta * Real.cos phi) ^ 2 +
      (r * Real.cos theta * Real.sin phi) ^ 2 + (r * Real.sin theta) ^ 2 = r ^ 2 := by
    have hp := Real.sin_sq_add_cos_sq phi
    have ht := Real.sin_sq_add_cos_sq theta
    linear_combination (r ^ 2 * Real.cos theta ^ 2) * hp + r ^ 2 * ht
  rw [h1]
  exact Real.sqrt_sq hr

/-- C4: when projected (non-icosahedral) output is requested, every point
written to the node file lies at distance exactly R from the origin (over
the reals, hence within any tolerance); when icosahedral output is
requested the coordinates are written unchanged. -/
theorem projection_radius (ico : Bool) (R : ℝ) (pts : List (ℝ × ℝ × ℝ))
    (hR : 0 ≤ R) :
    ((ico = false) → ∀ p ∈ nodesOut ico R pts, norm3 p = R) ∧
      ((ico = true) → nodesOut ico R pts = pts) := by
  constructor
  · rintro rfl p hp
    have hout : nodesOut false R pts = spherical_points R pts := by
      simp [nodesOut]
    rw [hout] at hp
    simp only [spherical_points, List.mem_map] at hp
    obtain ⟨q, hq, rfl⟩ := hp
    exact norm3_sp2cart R _ _ hR
  · rintro rfl
    simp [nodesOut]

theorem projection_radius_witness :
    (0 : ℝ) ≤ 1 ∧
      (((false = false) → ∀ p ∈ nodesOut false 1 [((1 : ℝ), 0, 0)], norm3 p = 1) ∧
        ((false = true) → nodesOut false 1 [((1 : ℝ), 0, 0)] = [(1, 0, 0)])) :=
  ⟨zero_le_one, projection_radius false 1 [(1, 0, 0)] zero_le_one⟩

/-- C10: for every cartesian point other than the origin, converting with
cart2sp and back with sp2cart reproduces the point exactly over the real
numbers; at the origin the radius cart2sp computes is 0, so the expression
arcsin(z/r) divides by zero unguarded. -/
theorem cart_sp_roundtrip (x y z : ℝ) (h : 0 < x ^ 2 + y ^ 2 + z ^ 2) :
    roundTrip x y z = (x, y, z) ∧ (cart2sp 0 0 0).1 = 0 := by
  refine ⟨?_, by show Real.sqrt (0 ^ 2 + 0 ^ 2 + 0 ^ 2) = 0; norm_num⟩
  show (Real.sqrt (x ^ 2 + y ^ 2 + z ^ 2) *
      Real.cos (Real.arcsin (z / Real.sqrt (x ^ 2 + y ^ 2 + z ^ 2))) *
      Real.cos (arctan2 y x),
    Real.sqrt (x ^ 2 + y ^ 2 + z ^ 2) *
      Real.cos (Real.arcsin (z / Real.sqrt (x ^ 2 + y ^ 2 + z ^ 2))) *
      Real.sin (arctan2 y x),
    Real.sqrt (x ^ 2 + y ^ 2 + z ^ 2) *
      Real.sin (Real.arcsin (z / Real.sqrt (x ^ 2 + y ^ 2 + z ^ 2)))) = (x, y, z)
  set r := Real.sqrt (x ^ 2 + y ^ 2 + z ^ 2) with hrdef
  have hr : 0 < r := Real.sqrt_pos.mpr h
  have hr2 : r ^ 2 = x ^ 2 + y ^ 2 + z ^ 2 := Real.sq_sqrt h.le
  have hzr : |z| ≤ r := by
    rw [← Real.sqrt_sq_eq_abs, hrdef]
    exact Real.sqrt_le_sqrt (by nlinarith [sq_nonneg x, sq_nonneg y])
  have hdiv : |z / r| ≤ 1 := by
    rw [abs_div, abs_of_pos hr]
    exact div_le_one_of_le₀ hzr hr.le
  have hsin : Real.sin (Real.arcsin (z / r)) = z / r :=
    Real.sin_arcsin (abs_le.mp hdiv).1 (abs_le.mp hdiv).2
  have hcos : Real.cos (Real.arcsin (z / r)) = Real.sqrt (x ^ 2 + y ^ 2) / r := by
    rw [Real.cos_arcsin]
    have h1 : 1 - (z / r) ^ 2 = (x ^ 2 + y ^ 2) / r ^ 2 := by
      field_simp
      linarith [hr2]
    rw [h1, Real.sqrt_div (by positivity), Real.sqrt_sq hr.le]
  rcases eq_or_lt_of_le (by positivity : (0 : ℝ) ≤ x ^ 2 + y ^ 2) with hxy | hxy
  · have hx : x = 0 := by nlinarith [sq_nonneg x, sq_nonneg y]
    have hy : y = 0 := by nlinarith [sq_nonneg x, sq_nonneg y]
    have hcos0 : Real.cos (Real.arcsin (z / r)) = 0 := by
      rw [hcos, ← hxy, Real.sqrt_zero, zero_div]
    simp only [Prod.mk.injEq]
    refine ⟨?_, ?_, ?_⟩
    · rw [hcos0, hx]; ring
    · rw [hcos0, hy]; ring
    · rw [hsin]; field_simp
  · have hrho : 0 < Real.sqrt (x ^ 2 + y ^ 2) := Real.sqrt_pos.mpr hxy
    have hcne : (⟨x, y⟩ : ℂ) ≠ 0 := by
      intro hc
      rw [Complex.ext_iff] at hc
      simp only [Complex.zero_re, Complex.zero_im] at hc
      nlinarith [hc.1, hc.2]
    have habs : Complex.abs ⟨x, y⟩ = Real.sqrt (x ^ 2 + y ^ 2) := by
      rw [Complex.abs_apply, Complex.normSq_mk]
      congr 1
      ring
    have hcosp : Real.cos (arctan2 y x) = x / Real.sqrt (x ^ 2 + y ^ 2) := by
      unfold arctan2
      rw [Complex.cos_arg hcne, habs]
    have hsinp : Real.sin (arctan2 y x) = y / Real.sqrt (x ^ 2 + y ^ 2) := by
      unfold arctan2
      rw [Complex.sin_arg, habs]
    simp only [Prod.mk.injEq]
    refine ⟨?_, ?_, ?_⟩
    · rw [hcos, hcosp]
      field_simp
    · rw [hcos, hsinp]
      field_simp
    · rw [hsin]
      field_simp

theorem cart_sp_roundtrip_witness :
    (0 : ℝ) < 1 ^ 2 + 0 ^ 2 + 0 ^ 2 ∧
      (roundTrip 1 0 0 = (1, 0, 0) ∧ (cart2sp 0 0 0).1 = 0) :=
  ⟨by norm_num, cart_sp_roundtrip 1 0 0 (by norm_num)⟩

/-- C5: counts of the spec-modelled pipeline.  At frequency 1 the
deduplicated point and edge counts are 12 = 10·1²+2 and 30 = 30·1², and at
frequency 2 they are 42 = 10·2²+2 and 120 = 30·2², as claimed; but the
reconstructed triangle count is 15 at frequency 1 and 74 at frequency 2,
not the claimed 20·n² (20 and 80): the loops of DomeGenerator.py
lines 293-295 run over range(1, len(hub_dict)) and never reach the largest
point id, losing every triangle containing it. -/
theorem pipeline_counts :
    (canonPoints 1).length = 12 ∧ (geoEdges 1).length = 30 ∧
      (geoTriangles 1).length = 15 ∧ (canonPoints 2).length = 42 ∧
      (geoEdges 2).length = 120 ∧ (geoTriangles 2).length = 74 := by
  refine ⟨by decide, by decide, by decide, ?_, ?_, ?_⟩
  · rw [canonPoints_two]; decide
  · show (dedupEdges (rawEdgesOn (canonPoints 2) 2)).length = 120
    rw [canonPoints_two, rawEdgesOn_two, dedupEdges_two]; decide
  · show (non_duplicates (triangle_list (canonPoints 2).length
      (hubFun (hubTable (dedupEdges (rawEdgesOn (canonPoints 2) 2))
        (canonPoints 2).length)))).length = 74
    rw [canonPoints_two, rawEdgesOn_two, dedupEdges_two]
    rw [show canonLit2.length = 42 from rfl]
    rw [hubTable_two, triangle_list_two, non_duplicates_two]; decide

end Dome
